import Mathlib

/-!
Shallow embedding of the nurijangter-crawler orchestration core
(checkpoint manager, deduplication store, per-item processing workflow,
page loop, and the navigation-recovery ladder), translated from
`src/checkpoint/manager.py`, `src/utils/deduplication.py`,
`src/crawler/engine.py`, `src/crawler/processor.py` and
`src/crawler/navigator.py`.

File I/O is modelled by an explicit `writeOk : Bool` oracle (whether the
temporary-write-then-replace pair of operations succeeds) and clock reads
by explicit `now : Nat` arguments.  SHA-256 fingerprints are modelled by
the pre-image key string itself (the hash is injective in the model;
everything upstream of the hash call is translated faithfully).
Browser/DOM outcomes (whether a grid row is visible, whether a pagination
button exists, whether a detail view opens) are environment flags, since
the concrete selector layer is an external collaborator of the embedded
logic.
-/

namespace Crawler

/-- Embeds `CrawlState` from `checkpoint/manager.py`. -/
inductive CrawlState where
  | initialized
  | in_progress
  | paused
  | completed
  | failed
deriving DecidableEq, Repr

/-- The `.value` string of each enum member. -/
def CrawlState.value : CrawlState → String
  | .initialized => "initialized"
  | .in_progress => "in_progress"
  | .paused => "paused"
  | .completed => "completed"
  | .failed => "failed"

/-- Embeds `CrawlState(s)` construction from the stored string (raises in Python on
an unknown string, hence `Option` here). -/
def CrawlState.ofValue : String → Option CrawlState
  | "initialized" => some .initialized
  | "in_progress" => some .in_progress
  | "paused" => some .paused
  | "completed" => some .completed
  | "failed" => some .failed
  | _ => none

/-- The statistics dictionary keys that the checkpoint manager itself
writes. `none` models an absent key. -/
structure Stats where
  start_time : Option Nat := none
  total_processed : Option Nat := none
  total_failed : Option Nat := none
  pages_crawled : Option Nat := none
  end_time : Option Nat := none
  duration_seconds : Option Int := none
deriving DecidableEq, Repr

/-- One entry of `failed_items`. -/
structure FailedItem where
  item_id : String
  error : String
  timestamp : Nat
  details : Option String := none
deriving DecidableEq, Repr

abbrev Metadata := List (String × String)

/-- In-memory state of `CheckpointManager`. -/
structure Manager where
  save_interval : Nat := 10
  state : CrawlState := .initialized
  current_page : Nat := 1
  processed_items : List String := []
  failed_items : List FailedItem := []
  statistics : Stats := {}
  metadata : Metadata := []
  last_save_time : Option Nat := none
  items_since_save : Nat := 0
deriving DecidableEq, Repr

/-- The dictionary written to the checkpoint file by `save_checkpoint`
(keys `state`, `current_page`, `processed_items`, `failed_items`,
`statistics`, `metadata`, `last_updated`). -/
structure CheckpointData where
  state : String
  current_page : Nat
  processed_items : List String
  failed_items : List FailedItem
  statistics : Stats
  metadata : Metadata
  last_updated : Nat
deriving DecidableEq, Repr

/-- Embeds `initialize_crawl`: reset all fields and stamp the start time. -/
def initialize_crawl (m : Manager) (md : Metadata) (now : Nat) : Manager :=
  { m with
    state := .in_progress
    current_page := 1
    processed_items := []
    failed_items := []
    statistics :=
      { start_time := some now
        total_processed := some 0
        total_failed := some 0
        pages_crawled := some 0 }
    metadata := md
    items_since_save := 0 }

/-- The dictionary built inside the `try` block of `save_checkpoint`. -/
def checkpointData (m : Manager) (now : Nat) : CheckpointData :=
  { state := m.state.value
    current_page := m.current_page
    processed_items := m.processed_items
    failed_items := m.failed_items
    statistics := m.statistics
    metadata := m.metadata
    last_updated := now }

/-- The body of `save_checkpoint`'s `try` block after the throttling guard:
write the data to a temporary file and atomically replace the target
(`writeOk` is whether that pair of filesystem operations succeeds), then
update `last_save_time` and reset `_items_since_save`.  The `.error` case
is a raised exception; note the in-memory mutations happen only after the
fallible file operations. -/
def save_checkpoint_attempt (m : Manager) (writeOk : Bool) (now : Nat) :
    Except String (Manager × CheckpointData) :=
  let data := checkpointData m now
  if writeOk then
    .ok ({ m with last_save_time := some now, items_since_save := 0 }, data)
  else
    .error "Failed to save checkpoint"

/-- Embeds `save_checkpoint(force)`: throttling guard, then the `try` block with its
exception handler (log and return).  The second component is the new content
of the checkpoint file (`none` = file unchanged). -/
def save_checkpoint (m : Manager) (force : Bool) (writeOk : Bool) (now : Nat) :
    Manager × Option CheckpointData :=
  if !force && m.items_since_save < m.save_interval then (m, none)
  else
    match save_checkpoint_attempt m writeOk now with
    | .ok (m', data) => (m', some data)
    | .error _ => (m, none)

/-- Embeds `mark_item_processed`: append the id, refresh the processed-count
statistic, bump the since-save counter and auto-save when the interval is
reached. -/
def mark_item_processed (m : Manager) (id : String) (writeOk : Bool) (now : Nat) :
    Manager × Option CheckpointData :=
  let m := { m with processed_items := m.processed_items ++ [id] }
  let m := { m with statistics := { m.statistics with total_processed := some m.processed_items.length } }
  let m := { m with items_since_save := m.items_since_save + 1 }
  if m.save_interval ≤ m.items_since_save then save_checkpoint m false writeOk now
  else (m, none)

/-- Embeds `mark_item_failed`: append a failed-item record and refresh the
failed-count statistic (no save). -/
def mark_item_failed (m : Manager) (id error : String) (now : Nat)
    (details : Option String := none) : Manager :=
  let fi : FailedItem := { item_id := id, error := error, timestamp := now, details := details }
  let m := { m with failed_items := m.failed_items ++ [fi] }
  { m with statistics := { m.statistics with total_failed := some m.failed_items.length } }

/-- Embeds `remove_failed_item`: filter out entries with the given id; if anything
was removed, refresh the failed-count statistic and force a save. -/
def remove_failed_item (m : Manager) (id : String) (writeOk : Bool) (now : Nat) :
    Manager × Option CheckpointData :=
  let initial_count := m.failed_items.length
  let m := { m with failed_items := m.failed_items.filter (fun it => it.item_id ≠ id) }
  if m.failed_items.length < initial_count then
    let m := { m with statistics := { m.statistics with total_failed := some m.failed_items.length } }
    save_checkpoint m true writeOk now
  else (m, none)

/-- Embeds `is_item_processed`. -/
def is_item_processed (m : Manager) (id : String) : Bool :=
  m.processed_items.contains id

/-- Embeds `advance_page`: increment the page and set the pages-crawled statistic
to `current_page - 1`. -/
def advance_page (m : Manager) : Manager :=
  let m := { m with current_page := m.current_page + 1 }
  { m with statistics := { m.statistics with pages_crawled := some (m.current_page - 1) } }

/-- Embeds `set_state`: unconditional assignment of the new state. -/
def set_state (m : Manager) (st : CrawlState) : Manager :=
  { m with state := st }

/-- Embeds `complete_crawl(success)`: set the terminal state, stamp the end time,
derive the duration from the stored start time, and force a save. -/
def complete_crawl (m : Manager) (success : Bool) (writeOk : Bool) (now : Nat) :
    Manager × Option CheckpointData :=
  let m := { m with state := if success then .completed else .failed }
  let m := { m with statistics := { m.statistics with end_time := some now } }
  let m :=
    match m.statistics.start_time with
    | some start =>
        { m with statistics :=
            { m.statistics with duration_seconds := some ((now : Int) - (start : Int)) } }
    | none => m
  save_checkpoint m true writeOk now

/-- Embeds `load_checkpoint` applied to parsed file data, on a manager `fresh`
(the fields not present in the file are left as they were).  `none` models
the exception path (unknown state string), in which case the Python method
logs and returns `False`. -/
def load_from_data (fresh : Manager) (data : CheckpointData) : Option Manager :=
  match CrawlState.ofValue data.state with
  | none => none
  | some st =>
      some { fresh with
        state := st
        current_page := data.current_page
        processed_items := data.processed_items
        failed_items := data.failed_items
        statistics := data.statistics
        metadata := data.metadata }

/-- The mutating checkpoint-manager operations (each carries the clock
reading and the file-write outcome of any save it performs). -/
inductive Op where
  | markProcessed (id : String) (writeOk : Bool) (now : Nat)
  | markFailed (id error : String) (now : Nat) (details : Option String)
  | advancePage
  | setState (st : CrawlState)
  | completeCrawl (success : Bool) (writeOk : Bool) (now : Nat)
  | removeFailed (id : String) (writeOk : Bool) (now : Nat)
  | save (force : Bool) (writeOk : Bool) (now : Nat)
deriving DecidableEq, Repr

/-- Apply one operation to the in-memory manager (the file output is
dropped here; it is examined separately where a claim needs it). -/
def applyOp (m : Manager) : Op → Manager
  | .markProcessed id w n => (mark_item_processed m id w n).1
  | .markFailed id e n d => mark_item_failed m id e n d
  | .advancePage => advance_page m
  | .setState st => set_state m st
  | .completeCrawl s w n => (complete_crawl m s w n).1
  | .removeFailed id w n => (remove_failed_item m id w n).1
  | .save f w n => (save_checkpoint m f w n).1

/-- Apply a sequence of operations left to right. -/
def applyOps (m : Manager) : List Op → Manager
  | [] => m
  | op :: ops => applyOps (applyOp m op) ops

/-! ## Deduplication store (`src/utils/deduplication.py`) -/

/-- A raw item: a Python dict from field name to value; `some none` models a
key present with value `None`, `none` models an absent key. -/
abbrev Item := List (String × Option String)

/-- Embeds `item.get(field, "")` followed by the `None → ""` normalisation inside
`_generate_hash`. -/
def itemGet (item : Item) (field : String) : String :=
  match item.lookup field with
  | some (some v) => v
  | some none => ""
  | none => ""

/-- Python `str.lower()` as a character-level map (kernel-evaluable model
of `String.toLower`). -/
def pyLower (s : String) : String := ⟨s.data.map Char.toLower⟩

/-- Python `str.strip()`: drop whitespace from both ends. -/
def pyStrip (s : String) : String :=
  ⟨((s.data.dropWhile Char.isWhitespace).reverse.dropWhile Char.isWhitespace).reverse⟩

/-- In-memory state of `DeduplicationManager`.  `seen_hashes` holds the
fingerprints; the model uses the pre-hash key string as the fingerprint
(SHA-256 is treated as injective). -/
structure Dedup where
  key_fields : List String
  enabled : Bool := true
  seen_hashes : List String := []
deriving DecidableEq, Repr

/-- Embeds `_generate_hash`: normalise (`str(value).strip().lower()`) the value of
each configured key field, join with `"|"`, and fingerprint the result. -/
def generate_hash (d : Dedup) (item : Item) : String :=
  let key_values := d.key_fields.map (fun f => pyLower (pyStrip (itemGet item f)))
  String.intercalate "|" key_values

/-- Embeds `is_duplicate`. -/
def is_duplicate (d : Dedup) (item : Item) : Bool :=
  if !d.enabled then false
  else d.seen_hashes.contains (generate_hash d item)

/-- Embeds `mark_as_seen` (the Python `set.add`; the returned hash is the first
component). -/
def mark_as_seen (d : Dedup) (item : Item) : String × Dedup :=
  if !d.enabled then ("", d)
  else
    let h := generate_hash d item
    (h, { d with seen_hashes := if d.seen_hashes.contains h then d.seen_hashes else h :: d.seen_hashes })

/-- Embeds `item.get(field, dflt)`.  A key present with value `None` yields the
empty string here (the claims never exercise a `None` identifier). -/
def pyGet (item : Item) (field dflt : String) : String :=
  match item.lookup field with
  | some (some v) => v
  | some none => ""
  | none => dflt

/-! ## Records and the navigation-recovery ladder
(`src/models/schema.py`, `src/crawler/processor.py`, `src/crawler/navigator.py`) -/

/-- The fields of the `BidNotice` pydantic model that the orchestration
logic reads (all optional string fields default to `None`). -/
structure BidNotice where
  bid_notice_number : String := ""
  bid_notice_name : String := ""
  announcement_agency : String := ""
  budget_amount : Option String := none
  base_price : Option String := none
  opening_date : Option String := none
  pre_qualification : Option String := none
  contract_bond : Option String := none
  notes : Option String := none
deriving DecidableEq, Repr

/-- Python falsiness of an optional string (`None` or `""`). -/
def falsy : Option String → Bool
  | none => true
  | some s => s.isEmpty

/-- Embeds `not getattr(bid_notice, field)` counted over the five critical fields
of the quality gate in `NoticeProcessor.process_notice`. -/
def criticalNullCount (bn : BidNotice) : Nat :=
  ([bn.budget_amount, bn.base_price, bn.opening_date,
    bn.pre_qualification, bn.contract_bond]).countP falsy

/-- The `ValueError` message raised by the quality gate. -/
def qualityGateMsg (nullCount : Nat) : String :=
  "누락된 필드가 너무 많음 (" ++ toString nullCount ++
    "/5 주요 필드 누락). 재시도를 위해 실패로 처리합니다."

/-- Browser-side outcomes driving one `fetch_detail_page` invocation:
whether the target row is visible at each rung of the ladder, whether the
two pagination-restore replays succeed, and whether one of the three
detail-open methods produces validated content. -/
structure LadderEnv where
  rowInitially : Bool
  rowAfterSoft : Bool
  rowAfterHard : Bool
  softRestoreOk : Bool
  hardRestoreOk : Bool
  openDetailOk : Bool
  detailResult : BidNotice
deriving DecidableEq, Repr

/-- Observable recovery steps taken by `fetch_detail_page`. -/
inductive RecoveryAction where
  | softReset
  | restoreAfterSoft (ok : Bool)
  | hardReset
  | restoreAfterHard (ok : Bool)
deriving DecidableEq, Repr

/-- The open-and-parse phase once a row is visible: one of new-tab, modal
or in-page content succeeds (`openDetailOk`), and the result must pass the
`opening_date` validation gate, otherwise an exception is raised. -/
def openPhase (env : LadderEnv) (bid : String) : Except String BidNotice :=
  if env.openDetailOk then
    if falsy env.detailResult.opening_date then
      .error ("Validation Failed: opening_date is missing/invalid for " ++ bid)
    else .ok env.detailResult
  else .error ("Failed to open detail page for " ++ bid ++ " (tried all methods)")

/-- Embeds `NoticeProcessor.fetch_detail_page`: locate the row; when missing, soft
reset (restoring pagination when beyond page 1, failures caught), then hard
reset (again restoring pagination, failures caught and logged), and when the
row is still missing, return the base data without raising.  The second
component records the recovery steps taken. -/
def fetch_detail_page (env : LadderEnv) (base : BidNotice) (current_page_num : Nat) :
    Except String BidNotice × List RecoveryAction :=
  let bid := base.bid_notice_number
  if bid.isEmpty then (.ok base, [])
  else if env.rowInitially then (openPhase env bid, [])
  else
    let acts := [RecoveryAction.softReset] ++
      (if 1 < current_page_num then [RecoveryAction.restoreAfterSoft env.softRestoreOk] else [])
    if env.rowAfterSoft then (openPhase env bid, acts)
    else
      let acts := acts ++ [RecoveryAction.hardReset] ++
        (if 1 < current_page_num then [RecoveryAction.restoreAfterHard env.hardRestoreOk] else [])
      if env.rowAfterHard then (openPhase env bid, acts)
      else (.ok base, acts)

/-! ## Pagination restore (`Navigator.restore_pagination`) -/

/-- Observable pagination actions. -/
inductive PageAction where
  | closeModals
  | nextGroup
  | selectPage (n : Nat)
deriving DecidableEq, Repr

/-- DOM availability of the pagination buttons: whether the next-group
button is found on the k-th jump, and whether the target page's button is
found by id / by text. -/
structure PagEnv where
  nextGroupBtn : Nat → Bool
  pageBtnById : Bool
  pageBtnByText : Bool

/-- The `while current_group_start < target_group_start` loop: each
iteration clicks the next-group button (raising when it cannot be found)
and advances the known group start by 10. -/
def restore_jumps (env : PagEnv) (cur target k : Nat) : Except String (List PageAction) :=
  if cur < target then
    if env.nextGroupBtn k then
      match restore_jumps env (cur + 10) target (k + 1) with
      | .ok rest => .ok (.nextGroup :: rest)
      | .error e => .error e
    else .error "Next group button not found"
  else .ok []
termination_by target - cur
decreasing_by omega

/-- Embeds `Navigator.restore_pagination`: no-op for targets ≤ 1; otherwise close
modals, jump groups up to the group containing the target page, then click
the target page's button (by id, falling back to text match), re-raising
any failure to the caller. -/
def restore_pagination (env : PagEnv) (target : Nat) : Except String (List PageAction) :=
  if target ≤ 1 then .ok []
  else
    let target_group_start := ((target - 1) / 10) * 10 + 1
    match restore_jumps env 1 target_group_start 0 with
    | .error e => .error e
    | .ok jumps =>
        if env.pageBtnById then .ok (.closeModals :: (jumps ++ [.selectPage target]))
        else if env.pageBtnByText then .ok (.closeModals :: (jumps ++ [.selectPage target]))
        else .error ("Page button " ++ toString target ++ " not found")

/-! ## Per-item processing workflow and page loop
(`CrawlerEngine._process_notice`, `NoticeProcessor.process_notice`,
`CrawlerEngine._crawl_list_pages`) -/

/-- Mutable state of the engine touched by the embedded methods
(checkpoint manager, dedup manager, the duplicate-run counter, the
in-memory collection and the `stats` counters). -/
structure EngineState where
  cm : Manager
  dedup : Dedup
  early_exit_threshold : Nat := 30
  consecutive_duplicates : Nat := 0
  collected : List BidNotice := []
  errors : Nat := 0
  items_skipped : Nat := 0
  items_extracted : Nat := 0
  pages_crawled : Nat := 0
deriving DecidableEq, Repr

/-- One raw row handed to the workflow: the raw field map, the
detail-fetch markers, the browser environment for the fetch, the record
that structured construction would yield, and whether that construction
raises (falling back to the minimal record). -/
structure RawNotice where
  fields : Item
  has_detail : Bool := false
  detail_link : Option String := none
  ladder : LadderEnv
  base : BidNotice
  constructFails : Bool := false
deriving Repr

/-- The minimal fallback record built when `BidNotice(**full_data)`
raises. -/
def fallbackNotice (n : RawNotice) (bid : String) : BidNotice :=
  { bid_notice_number := bid
    bid_notice_name := pyGet n.fields "bid_notice_name" "Unknown"
    announcement_agency := pyGet n.fields "announcement_agency" "Unknown" }

/-- The `try` body of `CrawlerEngine._process_notice`.  An `.error` carries
the exception message together with the mutated state at the moment of the
raise (Python mutations performed before a raise are not rolled back). -/
def engine_process_notice_try (s : EngineState) (n : RawNotice) (cur : Nat)
    (writeOk : Bool) (now : Nat) : Except (String × EngineState) EngineState :=
  let bid := pyGet n.fields "bid_notice_number" ""
  if is_item_processed s.cm bid then
    .ok { s with items_skipped := s.items_skipped + 1 }
  else if is_duplicate s.dedup n.fields then
    let s := { s with items_skipped := s.items_skipped + 1 }
    let s := { s with cm := (mark_item_processed s.cm bid writeOk now).1 }
    .ok { s with consecutive_duplicates := s.consecutive_duplicates + 1 }
  else
    let s := { s with consecutive_duplicates := 0 }
    let fetched :=
      if n.detail_link.isSome || n.has_detail then
        (fetch_detail_page n.ladder n.base cur).1
      else .ok n.base
    match fetched with
    | .error e => .error (e, s)
    | .ok full =>
        let bn := if n.constructFails then fallbackNotice n bid else full
        let s := { s with collected := s.collected ++ [bn] }
        let s := { s with items_extracted := s.items_extracted + 1 }
        let s := { s with dedup := (mark_as_seen s.dedup n.fields).2 }
        let s := { s with cm := (mark_item_processed s.cm bid writeOk now).1 }
        .ok s

/-- Embeds `CrawlerEngine._process_notice`: the `try` body with its boundary
handler, which records the failure via `mark_item_failed` and increments
the error counter — it never re-raises. -/
def engine_process_notice (s : EngineState) (n : RawNotice) (cur : Nat)
    (writeOk : Bool) (now : Nat) : EngineState :=
  match engine_process_notice_try s n cur writeOk now with
  | .ok s' => s'
  | .error (e, s') =>
      let s' := { s' with cm := mark_item_failed s'.cm (pyGet n.fields "bid_notice_number" "unknown") e now }
      { s' with errors := s'.errors + 1 }

/-- The `try` body of `NoticeProcessor.process_notice`: identical to the
engine version up to construction, then the data-quality gate: with at
least 4 of the 5 critical fields empty and no note, pop the tentative
addition off the collection and raise. -/
def processor_process_notice_try (s : EngineState) (n : RawNotice) (cur : Nat)
    (writeOk : Bool) (now : Nat) : Except (String × EngineState) EngineState :=
  let bid := pyGet n.fields "bid_notice_number" ""
  if is_item_processed s.cm bid then
    .ok { s with items_skipped := s.items_skipped + 1 }
  else if is_duplicate s.dedup n.fields then
    let s := { s with items_skipped := s.items_skipped + 1 }
    let s := { s with cm := (mark_item_processed s.cm bid writeOk now).1 }
    .ok { s with consecutive_duplicates := s.consecutive_duplicates + 1 }
  else
    let s := { s with consecutive_duplicates := 0 }
    let fetched :=
      if n.detail_link.isSome || n.has_detail then
        (fetch_detail_page n.ladder n.base cur).1
      else .ok n.base
    match fetched with
    | .error e => .error (e, s)
    | .ok full =>
        let bn := if n.constructFails then fallbackNotice n bid else full
        let s := { s with collected := s.collected ++ [bn] }
        let null_count := criticalNullCount bn
        if 4 ≤ null_count && falsy bn.notes then
          let s := { s with collected := s.collected.dropLast }
          .error (qualityGateMsg null_count, s)
        else
          let s := { s with items_extracted := s.items_extracted + 1 }
          let s := { s with dedup := (mark_as_seen s.dedup n.fields).2 }
          let s := { s with cm := (mark_item_processed s.cm bid writeOk now).1 }
          .ok s

/-- Embeds `NoticeProcessor.process_notice` with its boundary handler. -/
def processor_process_notice (s : EngineState) (n : RawNotice) (cur : Nat)
    (writeOk : Bool) (now : Nat) : EngineState :=
  match processor_process_notice_try s n cur writeOk now with
  | .ok s' => s'
  | .error (e, s') =>
      let s' := { s' with cm := mark_item_failed s'.cm (pyGet n.fields "bid_notice_number" "unknown") e now }
      { s' with errors := s'.errors + 1 }

/-- The environment outcome for one iteration of the page loop: either an
exception escapes while handling the whole page, or the page parses to a
row list plus whether a next page exists and whether navigating to it
succeeds. -/
inductive PageStep where
  | raise (msg : String)
  | ok (notices : List RawNotice) (hasNext : Bool) (navOk : Bool)
deriving Repr

/-- How the page loop terminated. -/
inductive ExitReason where
  | maxPages
  | earlyExit
  | navFailed
  | noMorePages
  | tooManyErrors
  | outOfInput
deriving DecidableEq, Repr

/-- The `for idx, notice_data in enumerate(notices_data)` loop body of
`_crawl_list_pages`: process each notice, then check the early-exit signal;
`true` means the early exit fired and the whole crawl function returns. -/
def process_page_items (cur : Nat) (writeOk : Bool) (now : Nat) :
    EngineState → List RawNotice → EngineState × Bool
  | s, [] => (s, false)
  | s, n :: rest =>
      let s := engine_process_notice s n cur writeOk now
      if s.early_exit_threshold ≤ s.consecutive_duplicates then (s, true)
      else process_page_items cur writeOk now s rest

/-- Embeds `CrawlerEngine._crawl_list_pages`: the `while True` loop.  `cur` is the
loop-local `current_page_num`; each iteration consumes one environment
`PageStep`.  On a page-level exception the error counter is bumped and the
loop aborts once it exceeds 10, otherwise the cursor is optimistically
advanced.  On success the items are processed (with the early-exit check),
then the loop follows the next-page link, assigning
`checkpoint_manager.current_page = current_page_num` and additionally
calling `advance_page()`, exactly as the source does. -/
def crawl_list_pages (maxPages : Nat) (writeOk : Bool) (now : Nat) :
    EngineState → Nat → List PageStep → EngineState × Nat × ExitReason
  | s, cur, [] => (s, cur, .outOfInput)
  | s, cur, step :: rest =>
      if 0 < maxPages && maxPages < cur then (s, cur, .maxPages)
      else
        match step with
        | .raise _ =>
            let s := { s with errors := s.errors + 1 }
            if 10 < s.errors then (s, cur, .tooManyErrors)
            else crawl_list_pages maxPages writeOk now s (cur + 1) rest
        | .ok notices hasNext navOk =>
            let s := { s with pages_crawled := s.pages_crawled + 1 }
            let (s, early) := process_page_items cur writeOk now s notices
            if early then (s, cur, .earlyExit)
            else if hasNext then
              if navOk then
                let cur := cur + 1
                let s := { s with cm := advance_page { s.cm with current_page := cur } }
                crawl_list_pages maxPages writeOk now s cur rest
              else (s, cur, .navFailed)
            else (s, cur, .noMorePages)

/-- The loop is entered with `current_page_num = checkpoint_manager.current_page`. -/
def run_crawl (maxPages : Nat) (writeOk : Bool) (now : Nat) (s : EngineState)
    (steps : List PageStep) : EngineState × Nat × ExitReason :=
  crawl_list_pages maxPages writeOk now s s.cm.current_page steps

/-! ## Helper lemmas -/

theorem ofValue_value (st : CrawlState) : CrawlState.ofValue st.value = some st := by
  cases st <;> rfl

theorem save_processed (m : Manager) (f w : Bool) (n : Nat) :
    (save_checkpoint m f w n).1.processed_items = m.processed_items := by
  unfold save_checkpoint save_checkpoint_attempt
  split
  · rfl
  · cases w <;> rfl

theorem save_failed (m : Manager) (f w : Bool) (n : Nat) :
    (save_checkpoint m f w n).1.failed_items = m.failed_items := by
  unfold save_checkpoint save_checkpoint_attempt
  split
  · rfl
  · cases w <;> rfl

theorem roundtrip_any (m fresh : Manager) (now : Nat) :
    ((save_checkpoint m true true now).2.bind (load_from_data fresh)) =
      some { fresh with
        state := m.state
        current_page := m.current_page
        processed_items := m.processed_items
        failed_items := m.failed_items
        statistics := m.statistics
        metadata := m.metadata } := by
  simp only [save_checkpoint, save_checkpoint_attempt, checkpointData, Bool.not_true,
    Bool.false_and, if_true, if_false, Bool.false_eq_true, ite_false]
  simp [load_from_data, ofValue_value]

/-- Claim C1: for every sequence of checkpoint-manager operations applied to
an initialized checkpoint, `save_checkpoint(force=True)` followed by loading
the written data into a fresh manager reproduces the in-memory
`current_page`, `processed_items`, `failed_items` and `statistics` (along
with the state and metadata) exactly as they were at the moment of the
save. -/
theorem checkpoint_save_load_roundtrip (ops : List Op) (md : Metadata)
    (ts now : Nat) (fresh : Manager) :
    ((save_checkpoint (applyOps (initialize_crawl {} md ts) ops) true true now).2.bind
        (load_from_data fresh)) =
      some { fresh with
        state := (applyOps (initialize_crawl {} md ts) ops).state
        current_page := (applyOps (initialize_crawl {} md ts) ops).current_page
        processed_items := (applyOps (initialize_crawl {} md ts) ops).processed_items
        failed_items := (applyOps (initialize_crawl {} md ts) ops).failed_items
        statistics := (applyOps (initialize_crawl {} md ts) ops).statistics
        metadata := (applyOps (initialize_crawl {} md ts) ops).metadata } :=
  roundtrip_any (applyOps (initialize_crawl {} md ts) ops) fresh now

/-- Claim C10: `save_checkpoint` never raises; when the file write or
replace fails the exception is caught and the call returns with every
in-memory field unchanged and the checkpoint file untouched — in
particular the items-since-save counter and `last_save_time` are not
reset, so the same save threshold will trigger a later attempt. -/
theorem save_checkpoint_failure_is_swallowed (m : Manager) (force : Bool) (now : Nat) :
    save_checkpoint m force false now = (m, none) ∧
    (save_checkpoint m force false now).1.items_since_save = m.items_since_save ∧
    (save_checkpoint m force false now).1.last_save_time = m.last_save_time := by
  have h : save_checkpoint m force false now = (m, none) := by
    unfold save_checkpoint save_checkpoint_attempt
    split <;> rfl
  exact ⟨h, by rw [h], by rw [h]⟩

/-! ## Claim C9: checkpoint invariants -/

/-- The transition relation asserted by the claim: forward along
`Initialized → InProgress → {Completed, Failed}` plus the reversible
`Paused ↔ InProgress` pair (staying put counted as allowed). -/
def claimAllowed : CrawlState → CrawlState → Bool
  | .initialized, .in_progress => true
  | .in_progress, .completed => true
  | .in_progress, .failed => true
  | .in_progress, .paused => true
  | .paused, .in_progress => true
  | a, b => a == b

/-- A freshly initialized manager (state `in_progress`). -/
def mInit : Manager := initialize_crawl {} [] 0

/-- Claim C9 counterexample: `set_state` assigns the requested state with no
guard, so a single operation after initialization moves the state backward
from `in_progress` to `initialized` — a transition the claimed one-directional
diagram forbids. -/
theorem set_state_moves_backward :
    mInit.state = CrawlState.in_progress ∧
    (applyOp mInit (Op.setState CrawlState.initialized)).state = CrawlState.initialized ∧
    claimAllowed mInit.state (applyOp mInit (Op.setState CrawlState.initialized)).state = false := by
  decide

theorem mark_item_processed_processed (m : Manager) (id : String) (w : Bool) (n : Nat) :
    (mark_item_processed m id w n).1.processed_items = m.processed_items ++ [id] := by
  simp only [mark_item_processed]
  split
  · exact save_processed _ _ _ _
  · rfl

theorem mark_item_processed_failed (m : Manager) (id : String) (w : Bool) (n : Nat) :
    (mark_item_processed m id w n).1.failed_items = m.failed_items := by
  simp only [mark_item_processed]
  split
  · exact save_failed _ _ _ _
  · rfl

theorem complete_crawl_processed (m : Manager) (s w : Bool) (n : Nat) :
    (complete_crawl m s w n).1.processed_items = m.processed_items := by
  simp only [complete_crawl]
  split <;> exact save_processed _ _ _ _

theorem complete_crawl_failed (m : Manager) (s w : Bool) (n : Nat) :
    (complete_crawl m s w n).1.failed_items = m.failed_items := by
  simp only [complete_crawl]
  split <;> exact save_failed _ _ _ _

theorem remove_failed_item_processed (m : Manager) (id : String) (w : Bool) (n : Nat) :
    (remove_failed_item m id w n).1.processed_items = m.processed_items := by
  simp only [remove_failed_item]
  split
  · exact save_processed _ _ _ _
  · rfl

/-- Whether an operation is a `remove_failed_item` call. -/
def Op.isRemoveFailed : Op → Bool
  | .removeFailed _ _ _ => true
  | _ => false

theorem applyOp_keeps_processed (m : Manager) (op : Op) :
    m.processed_items <+: (applyOp m op).processed_items := by
  cases op with
  | markProcessed id w n =>
      rw [applyOp, mark_item_processed_processed m id w n]
      exact ⟨[id], rfl⟩
  | markFailed id e n d => exact ⟨[], List.append_nil _⟩
  | advancePage => exact ⟨[], List.append_nil _⟩
  | setState st => exact ⟨[], List.append_nil _⟩
  | completeCrawl s w n =>
      rw [applyOp, complete_crawl_processed m s w n]
  | removeFailed id w n =>
      rw [applyOp, remove_failed_item_processed m id w n]
  | save f w n =>
      rw [applyOp, save_processed m f w n]

/-- Claim C9 amended: `processedItemIds` never shrinks (it is always a
prefix of its later value, over single operations and over sequences);
`failedItems` can shrink only through `remove_failed_item`; but the state
diagram is not enforced — `set_state` writes any requested state
unconditionally, so backward transitions are possible. -/
theorem checkpoint_mutation_invariants :
    (∀ (m : Manager) (op : Op), m.processed_items <+: (applyOp m op).processed_items) ∧
    (∀ (m : Manager) (ops : List Op), m.processed_items <+: (applyOps m ops).processed_items) ∧
    (∀ (m : Manager) (op : Op),
        (applyOp m op).failed_items.length < m.failed_items.length →
        op.isRemoveFailed = true) ∧
    (∀ (m : Manager) (st : CrawlState), (applyOp m (Op.setState st)).state = st) := by
  refine ⟨applyOp_keeps_processed, ?_, ?_, fun m st => rfl⟩
  · intro m ops
    induction ops generalizing m with
    | nil => exact ⟨[], List.append_nil _⟩
    | cons op ops ih =>
        exact (applyOp_keeps_processed m op).trans (ih (applyOp m op))
  · intro m op h
    cases op with
    | markProcessed id w n =>
        rw [applyOp, mark_item_processed_failed m id w n] at h
        omega
    | markFailed id e n d =>
        simp only [applyOp, mark_item_failed, List.length_append] at h
        omega
    | advancePage => simp only [applyOp, advance_page] at h; omega
    | setState st => simp only [applyOp, set_state] at h; omega
    | completeCrawl s w n =>
        rw [applyOp, complete_crawl_failed m s w n] at h
        omega
    | removeFailed id w n => rfl
    | save f w n =>
        rw [applyOp, save_failed m f w n] at h
        omega

/-- A manager holding one failed item, for the witness below. -/
def mOneFailed : Manager :=
  { mInit with failed_items := [{ item_id := "x", error := "boom", timestamp := 0 }] }

/-- Witness for the amended C9 theorem: its shrink-only-via-removal part
applied at a concrete removal that actually shrinks `failed_items`. -/
theorem checkpoint_mutation_invariants_witness :
    (Op.removeFailed "x" true 1).isRemoveFailed = true :=
  checkpoint_mutation_invariants.2.2.1 mOneFailed (Op.removeFailed "x" true 1) (by decide)

/-! ## Claim C8: deduplication -/

/-- A dedup store configured the way the engine defaults it
(`key_fields=['bid_notice_number']`, enabled). -/
def dedupDefault : Dedup := { key_fields := ["bid_notice_number"] }

/-- Claim C8 counterexample: the items with `bid_notice_number` values
`"A"` and `"a"` differ in the value of the configured key field, yet after
marking the first as seen the second is reported a duplicate, because
`_generate_hash` case-folds (and trims) the values before fingerprinting. -/
theorem dedup_differing_key_field_still_duplicate :
    itemGet [("bid_notice_number", some "A")] "bid_notice_number" ≠
      itemGet [("bid_notice_number", some "a")] "bid_notice_number" ∧
    is_duplicate (mark_as_seen dedupDefault [("bid_notice_number", some "A")]).2
      [("bid_notice_number", some "a")] = true := by
  decide

/-- Claim C8 amended: with deduplication enabled, after `mark_as_seen item`
a subsequent `is_duplicate item` returns true; and marking one item as seen
does not make a second, previously unseen item a duplicate provided their
normalized (trimmed, case-folded, joined) key strings differ. -/
theorem dedup_mark_then_duplicate (d : Dedup) (i j : Item)
    (hen : d.enabled = true)
    (hne : generate_hash d j ≠ generate_hash d i)
    (hj : is_duplicate d j = false) :
    is_duplicate (mark_as_seen d i).2 i = true ∧
    is_duplicate (mark_as_seen d i).2 j = false := by
  obtain ⟨kf, en, hs⟩ := d
  simp only [Dedup.enabled] at hen
  subst hen
  simp only [is_duplicate, mark_as_seen, Bool.not_true, Bool.false_eq_true,
    if_false, ite_false] at hj ⊢
  constructor
  · split
    · simp_all
    · show (generate_hash { key_fields := kf, enabled := true, seen_hashes := hs } i :: hs).contains
          (generate_hash { key_fields := kf, enabled := true, seen_hashes := hs } i) = true
      simp [List.contains_cons]
  · split <;> simp_all [generate_hash]

/-- Witness for the amended C8 theorem at concrete items with distinct
normalized key strings. -/
theorem dedup_mark_then_duplicate_witness :
    is_duplicate (mark_as_seen dedupDefault [("bid_notice_number", some "A")]).2
      [("bid_notice_number", some "A")] = true ∧
    is_duplicate (mark_as_seen dedupDefault [("bid_notice_number", some "A")]).2
      [("bid_notice_number", some "b")] = false :=
  dedup_mark_then_duplicate dedupDefault
    [("bid_notice_number", some "A")] [("bid_notice_number", some "b")]
    rfl (by decide) (by decide)

/-! ## Claim C6: pagination restore -/

theorem restore_jumps_replicate (env : PagEnv) (h : ∀ k, env.nextGroupBtn k = true) :
    ∀ (kk c j : Nat),
      restore_jumps env c (c + 10 * kk) j = .ok (List.replicate kk .nextGroup) := by
  intro kk
  induction kk with
  | zero =>
      intro c j
      rw [restore_jumps]
      simp
  | succ k ih =>
      intro c j
      rw [restore_jumps]
      have hlt : c < c + 10 * (k + 1) := by omega
      have harith : c + 10 * (k + 1) = (c + 10) + 10 * k := by omega
      simp only [hlt, if_true, h j, harith, ih (c + 10) (j + 1), List.replicate_succ]
      rw [if_pos (by omega : c < c + 10 + 10 * k)]

/-- Claim C6: for every target page `p > 1`, with the pagination buttons
available, `restore_pagination` performs exactly `(p-1)/10` next-group
clicks and then selects page `p` directly (the select being the final
action); in particular the group jumps for page 23 number exactly 2. -/
theorem pagination_restore_group_jumps (env : PagEnv) (p : Nat)
    (hp : 1 < p)
    (hbtn : ∀ k, env.nextGroupBtn k = true)
    (hid : env.pageBtnById = true) :
    restore_pagination env p =
      .ok (.closeModals ::
        (List.replicate ((p - 1) / 10) PageAction.nextGroup ++ [.selectPage p])) ∧
    (PageAction.closeModals ::
        (List.replicate ((p - 1) / 10) PageAction.nextGroup ++
          [PageAction.selectPage p])).count PageAction.nextGroup = (p - 1) / 10 ∧
    (PageAction.closeModals ::
        (List.replicate ((p - 1) / 10) PageAction.nextGroup ++
          [PageAction.selectPage p])).getLast? = some (.selectPage p) := by
  refine ⟨?_, ?_, ?_⟩
  · rw [restore_pagination]
    have hnle : ¬ p ≤ 1 := by omega
    have harith : (p - 1) / 10 * 10 + 1 = 1 + 10 * ((p - 1) / 10) := by omega
    simp only [hnle, if_false, ite_false, harith,
      restore_jumps_replicate env hbtn ((p - 1) / 10) 1 0, hid, if_true, ite_true]
  · simp [List.count_cons, List.count_append]
  · rw [show PageAction.closeModals ::
          (List.replicate ((p - 1) / 10) PageAction.nextGroup ++ [PageAction.selectPage p]) =
        (PageAction.closeModals :: List.replicate ((p - 1) / 10) PageAction.nextGroup) ++
          [PageAction.selectPage p] by simp,
      List.getLast?_append_cons]
    rfl

/-- A pagination environment where every button is found. -/
def pagEnvAllOk : PagEnv := { nextGroupBtn := fun _ => true, pageBtnById := true, pageBtnByText := true }

/-- Witness for C6 at target page 23: exactly 2 next-group actions
(1 → 11 → 21) followed by selecting page 23. -/
theorem pagination_restore_group_jumps_witness :
    restore_pagination pagEnvAllOk 23 =
      .ok (.closeModals ::
        (List.replicate 2 PageAction.nextGroup ++ [.selectPage 23])) ∧
    (PageAction.closeModals ::
        (List.replicate 2 PageAction.nextGroup ++
          [PageAction.selectPage 23])).count PageAction.nextGroup = 2 ∧
    (PageAction.closeModals ::
        (List.replicate 2 PageAction.nextGroup ++
          [PageAction.selectPage 23])).getLast? = some (.selectPage 23) :=
  pagination_restore_group_jumps pagEnvAllOk 23 (by decide) (fun _ => rfl) rfl

/-! ## Engine scenarios: claims C2 and C3 -/

/-- A ladder environment for items whose row is present and whose detail
view opens and validates. -/
def okLadder : LadderEnv :=
  { rowInitially := true, rowAfterSoft := true, rowAfterHard := true
    softRestoreOk := true, hardRestoreOk := true, openDetailOk := true
    detailResult := { opening_date := some "2025-01-01" } }

/-- A list-page row carrying its identifier, needing no detail fetch, whose
constructed record has every critical field populated. -/
def listNotice (id : String) : RawNotice :=
  { fields := [("bid_notice_number", some id)]
    base :=
      { bid_notice_number := id
        bid_notice_name := "name"
        announcement_agency := "agency"
        budget_amount := some "1"
        base_price := some "1"
        opening_date := some "2025-01-01"
        pre_qualification := some "q"
        contract_bond := some "c" }
    ladder := okLadder }

/-- Engine state for the C2 scenario: fresh checkpoint, dedup store primed
with the fingerprints of d1, d2 and d3, early-exit threshold 3. -/
def c2State : EngineState :=
  { cm := initialize_crawl {} [] 0
    dedup := { key_fields := ["bid_notice_number"], seen_hashes := ["d1", "d2", "d3"] }
    early_exit_threshold := 3 }

/-- Claim C2 counterexample: with threshold 3, the item run
duplicate-duplicate-duplicate-new triggers the early exit at the third
duplicate — the loop reports the exit, the counter stands at 3 (not 0),
and the trailing new item is never examined (neither marked processed nor
extracted) — contradicting the claim that this run leaves the counter at 0
and does not trigger the exit. -/
theorem early_exit_fires_before_new_item :
    (process_page_items 1 true 0 c2State
        [listNotice "d1", listNotice "d2", listNotice "d3", listNotice "n1"]).2 = true ∧
    (process_page_items 1 true 0 c2State
        [listNotice "d1", listNotice "d2", listNotice "d3", listNotice "n1"]).1.consecutive_duplicates = 3 ∧
    is_item_processed
      (process_page_items 1 true 0 c2State
        [listNotice "d1", listNotice "d2", listNotice "d3", listNotice "n1"]).1.cm "n1" = false ∧
    (process_page_items 1 true 0 c2State
        [listNotice "d1", listNotice "d2", listNotice "d3", listNotice "n1"]).1.items_extracted = 0 := by
  decide

/-- Claim C2 amended: the early-exit signal is checked after each item, a
duplicate increments the counter and a new item resets it to 0; hence with
threshold 3, three consecutive duplicates trigger the exit exactly at the
third duplicate even when a new item follows (the run is identical to the
one without the trailing new item), while two consecutive duplicates
followed by one new item leave the counter at 0 and do not trigger the
exit. -/
theorem early_exit_exactly_at_threshold :
    (process_page_items 1 true 0 c2State
        [listNotice "d1", listNotice "d2", listNotice "d3", listNotice "n1"]) =
      (process_page_items 1 true 0 c2State
        [listNotice "d1", listNotice "d2", listNotice "d3"]) ∧
    (process_page_items 1 true 0 c2State
        [listNotice "d1", listNotice "d2", listNotice "d3"]).2 = true ∧
    (process_page_items 1 true 0 c2State [listNotice "d1", listNotice "d2"]).2 = false ∧
    (process_page_items 1 true 0 c2State
        [listNotice "d1", listNotice "d2", listNotice "n1"]).2 = false ∧
    (process_page_items 1 true 0 c2State
        [listNotice "d1", listNotice "d2", listNotice "n1"]).1.consecutive_duplicates = 0 := by
  decide

/-- Engine state for the C3 scenario: fresh checkpoint, dedup store primed
with the two page-2 duplicates, early-exit threshold 2. -/
def c3State : EngineState :=
  { cm := initialize_crawl {} [] 0
    dedup := { key_fields := ["bid_notice_number"], seen_hashes := ["d1", "d2"] }
    early_exit_threshold := 2 }

/-- The two listing pages of the C3 scenario: page 1 yields three new
items, page 2 yields two duplicates; a next page exists after page 1 and
navigation succeeds. -/
def c3Steps : List PageStep :=
  [ .ok [listNotice "a1", listNotice "a2", listNotice "a3"] true true,
    .ok [listNotice "d1", listNotice "d2"] true true ]

/-- Claim C3 exhibit: the run stops via early exit at page 2's second
duplicate and collects 3 items as claimed, but the checkpoint's
`current_page` is left at 3, not 2 — the page transition assigns
`current_page = 2` and then additionally calls `advance_page()`, a double
increment that leaves the cursor one past the page actually being
crawled. -/
theorem two_page_run_leaves_cursor_at_three :
    (run_crawl 0 true 0 c3State c3Steps).2.2 = ExitReason.earlyExit ∧
    (run_crawl 0 true 0 c3State c3Steps).1.collected.length = 3 ∧
    (run_crawl 0 true 0 c3State c3Steps).1.items_extracted = 3 ∧
    (run_crawl 0 true 0 c3State c3Steps).1.cm.current_page = 3 ∧
    (run_crawl 0 true 0 c3State c3Steps).1.pages_crawled = 2 ∧
    (run_crawl 0 true 0 c3State c3Steps).1.cm.statistics.pages_crawled = some 2 := by
  decide

/-! ## Claim C7: error containment and the abort ceiling -/

/-- Whether a page step is a page-level exception. -/
def PageStep.isRaise : PageStep → Bool
  | .raise _ => true
  | .ok _ _ _ => false

/-- A ladder environment whose detail view never opens: processing the
item raises at the fetch step and is caught at the workflow boundary. -/
def failLadder : LadderEnv :=
  { rowInitially := true, rowAfterSoft := true, rowAfterHard := true
    softRestoreOk := true, hardRestoreOk := true, openDetailOk := false
    detailResult := {} }

/-- A row requiring a detail fetch that will fail. -/
def failNotice (id : String) : RawNotice :=
  { fields := [("bid_notice_number", some id)]
    has_detail := true
    base := { bid_notice_number := id }
    ladder := failLadder }

/-- A fresh engine state with the default early-exit threshold. -/
def freshState : EngineState :=
  { cm := initialize_crawl {} [] 0
    dedup := { key_fields := ["bid_notice_number"] } }

/-- The C7 scenario: one page with eleven per-item failures followed by a
single page-level exception. -/
def elevenFailSteps : List PageStep :=
  [ .ok ((List.range 11).map (fun i => failNotice ("f" ++ toString i))) true true,
    .raise "page blew up" ]

/-- Claim C7 counterexample: after eleven per-item failures (each caught
and recorded), a single page-level exception — the first and only one, so
the page-level error count is 1 ≤ 10 — pushes the shared error counter to
12 and aborts the crawl, contradicting the claim that the loop aborts only
when the count of page-level errors alone exceeds 10. -/
theorem item_failures_count_toward_abort_ceiling :
    elevenFailSteps.countP PageStep.isRaise = 1 ∧
    (run_crawl 0 true 0 freshState elevenFailSteps).2.2 = ExitReason.tooManyErrors ∧
    (run_crawl 0 true 0 freshState elevenFailSteps).1.errors = 12 ∧
    (run_crawl 0 true 0 freshState elevenFailSteps).1.cm.failed_items.length = 11 := by
  decide

/-- Claim C7 amended: an exception at any step of the per-item workflow is
caught at the workflow boundary, recorded via `mark_item_failed` and
converted into an error increment (it never propagates); the page loop
aborts via the error ceiling only upon a page-level exception when the
cumulative error counter — which counts per-item failures and page-level
errors together — exceeds 10; with no page-level exception the loop never
aborts through the ceiling, so per-item failures alone never abort the
crawl. -/
theorem per_item_failures_never_propagate :
    (∀ (s : EngineState) (n : RawNotice) (cur : Nat) (w : Bool) (now : Nat)
        (e : String) (s1 : EngineState),
        engine_process_notice_try s n cur w now = .error (e, s1) →
        engine_process_notice s n cur w now =
          { s1 with
            cm := mark_item_failed s1.cm (pyGet n.fields "bid_notice_number" "unknown") e now
            errors := s1.errors + 1 }) ∧
    (∀ (maxP : Nat) (w : Bool) (now : Nat) (s : EngineState) (cur : Nat)
        (steps : List PageStep),
        (crawl_list_pages maxP w now s cur steps).2.2 = ExitReason.tooManyErrors →
        10 < (crawl_list_pages maxP w now s cur steps).1.errors ∧
        steps.countP PageStep.isRaise ≠ 0) ∧
    (∀ (maxP : Nat) (w : Bool) (now : Nat) (s : EngineState) (cur : Nat)
        (steps : List PageStep),
        steps.countP PageStep.isRaise = 0 →
        (crawl_list_pages maxP w now s cur steps).2.2 ≠ ExitReason.tooManyErrors) := by
  have h1 : ∀ (s : EngineState) (n : RawNotice) (cur : Nat) (w : Bool) (now : Nat)
      (e : String) (s1 : EngineState),
      engine_process_notice_try s n cur w now = .error (e, s1) →
      engine_process_notice s n cur w now =
        { s1 with
          cm := mark_item_failed s1.cm (pyGet n.fields "bid_notice_number" "unknown") e now
          errors := s1.errors + 1 } := by
    intro s n cur w now e s1 h
    rw [engine_process_notice, h]
  have h2 : ∀ (maxP : Nat) (w : Bool) (now : Nat) (steps : List PageStep)
      (s : EngineState) (cur : Nat) (res : EngineState × Nat × ExitReason),
      crawl_list_pages maxP w now s cur steps = res →
      res.2.2 = ExitReason.tooManyErrors →
      10 < res.1.errors ∧ steps.countP PageStep.isRaise ≠ 0 := by
    intro maxP w now steps
    induction steps with
    | nil =>
        intro s cur res hres h
        rw [crawl_list_pages] at hres
        subst hres
        simp at h
    | cons step rest ih =>
        intro s cur res hres h
        simp only [crawl_list_pages] at hres
        split at hres
        · subst hres; simp at h
        · cases step with
          | raise msg =>
              simp only at hres
              split at hres
              · next hgt =>
                  subst hres
                  refine ⟨by simpa using hgt, ?_⟩
                  simp [List.countP_cons, PageStep.isRaise]
              · have hrec := ih _ _ _ hres h
                refine ⟨hrec.1, ?_⟩
                simp [List.countP_cons, PageStep.isRaise]
          | ok notices hasNext navOk =>
              simp only at hres
              split at hres
              · subst hres; simp at h
              · split at hres
                · split at hres
                  · have hrec := ih _ _ _ hres h
                    refine ⟨hrec.1, ?_⟩
                    simp only [List.countP_cons, PageStep.isRaise, Bool.false_eq_true,
                      if_false, ite_false]
                    simpa using hrec.2
                  · subst hres; simp at h
                · subst hres; simp at h
  refine ⟨h1, ?_, ?_⟩
  · intro maxP w now s cur steps h
    exact h2 maxP w now steps s cur _ rfl h
  · intro maxP w now s cur steps hz h
    exact (h2 maxP w now steps s cur _ rfl h).2 hz

/-- Witness for C7 amended: the boundary handler applied at a concrete
failing fetch. -/
theorem per_item_failures_never_propagate_witness :
    engine_process_notice freshState (failNotice "x") 1 true 0 =
      { freshState with
        consecutive_duplicates := 0
        cm := mark_item_failed freshState.cm "x"
          "Failed to open detail page for x (tried all methods)" 0
        errors := freshState.errors + 1 } :=
  per_item_failures_never_propagate.1 freshState (failNotice "x") 1 true 0
    "Failed to open detail page for x (tried all methods)"
    { freshState with consecutive_duplicates := 0 } rfl

deriving instance DecidableEq for Except

/-! ## Claim C5: pagination-restore failure after soft/hard reset -/

/-- A ladder environment in which the target row is never visible and the
pagination restore attempted after the hard reset fails. -/
def lostRowLadder : LadderEnv :=
  { rowInitially := false, rowAfterSoft := false, rowAfterHard := false
    softRestoreOk := true, hardRestoreOk := false, openDetailOk := true
    detailResult := { opening_date := some "2025-01-01" } }

/-- A detail-needing row whose recovery ladder loses the row and whose
hard-reset pagination restore fails. -/
def lostRowNotice : RawNotice :=
  { fields := [("bid_notice_number", some "h1")]
    has_detail := true
    base := (listNotice "h1").base
    ladder := lostRowLadder }

/-- An engine state resumed at page 2, so the recovery ladder attempts
pagination restores. -/
def pageTwoState : EngineState :=
  { cm := { initialize_crawl {} [] 0 with current_page := 2 }
    dedup := { key_fields := ["bid_notice_number"] } }

/-- Claim C5 counterexample: with the pagination restore after the hard
reset failing (`restoreAfterHard false` occurs in the recovery trace), the
fetch returns the base data without raising, the item is committed
normally, and the crawl ends with no errors and no failed items — the
failure is not fatal and the crawl does not abort. -/
theorem hard_reset_restore_failure_not_fatal :
    (fetch_detail_page lostRowLadder lostRowNotice.base 2).2.contains
      (RecoveryAction.restoreAfterHard false) = true ∧
    (fetch_detail_page lostRowLadder lostRowNotice.base 2).1 = Except.ok lostRowNotice.base ∧
    (run_crawl 0 true 0 pageTwoState [PageStep.ok [lostRowNotice] false true]).2.2 =
      ExitReason.noMorePages ∧
    (run_crawl 0 true 0 pageTwoState [PageStep.ok [lostRowNotice] false true]).1.errors = 0 ∧
    (run_crawl 0 true 0 pageTwoState [PageStep.ok [lostRowNotice] false true]).1.cm.failed_items = [] ∧
    (run_crawl 0 true 0 pageTwoState [PageStep.ok [lostRowNotice] false true]).1.collected.length = 1 := by
  decide

/-- Claim C5 amended: when the row is missing beyond page 1, the
pagination restore attempted after the soft reset has its failure caught
(the ladder escalates to a hard reset whenever the row is still missing,
restore failure or not), and the restore attempted after the hard reset
likewise has its failure caught and logged; if the row remains missing the
fetch returns the base data normally, so the failure never aborts the
crawl. -/
theorem restore_failures_are_swallowed (env : LadderEnv) (base : BidNotice) (cur : Nat)
    (hbid : base.bid_notice_number.isEmpty = false)
    (h0 : env.rowInitially = false)
    (h1 : env.rowAfterSoft = false)
    (hcur : 1 < cur) :
    (fetch_detail_page env base cur).2.contains RecoveryAction.hardReset = true ∧
    (fetch_detail_page env base cur).2.contains
      (RecoveryAction.restoreAfterSoft env.softRestoreOk) = true ∧
    (fetch_detail_page env base cur).2.contains
      (RecoveryAction.restoreAfterHard env.hardRestoreOk) = true ∧
    (env.rowAfterHard = false → (fetch_detail_page env base cur).1 = Except.ok base) := by
  cases hrow : env.rowAfterHard with
  | false =>
      simp [fetch_detail_page, hbid, h0, h1, hrow, hcur]
  | true =>
      simp [fetch_detail_page, hbid, h0, h1, hrow, hcur]

/-- Witness for C5 amended at the concrete lost-row environment. -/
theorem restore_failures_are_swallowed_witness :
    (fetch_detail_page lostRowLadder (listNotice "h1").base 2).2.contains
      RecoveryAction.hardReset = true ∧
    (fetch_detail_page lostRowLadder (listNotice "h1").base 2).2.contains
      (RecoveryAction.restoreAfterSoft lostRowLadder.softRestoreOk) = true ∧
    (fetch_detail_page lostRowLadder (listNotice "h1").base 2).2.contains
      (RecoveryAction.restoreAfterHard lostRowLadder.hardRestoreOk) = true ∧
    (lostRowLadder.rowAfterHard = false →
      (fetch_detail_page lostRowLadder (listNotice "h1").base 2).1 =
        Except.ok (listNotice "h1").base) :=
  restore_failures_are_swallowed lostRowLadder (listNotice "h1").base 2
    (by decide) rfl rfl (by decide)

/-! ## Claim C4: the data-quality gate -/

/-- Claim C4: when the constructed record has at least 4 of the 5 critical
fields empty and carries no note, the tentative addition to the in-memory
collection is undone (the collection is exactly as before), the item is
recorded in `failed_items` with the descriptive quality-gate message, and
the error counter is incremented. -/
theorem quality_gate_rejects_mostly_null (s : EngineState) (n : RawNotice) (cur : Nat)
    (w : Bool) (now : Nat)
    (hproc : is_item_processed s.cm (pyGet n.fields "bid_notice_number" "") = false)
    (hdup : is_duplicate s.dedup n.fields = false)
    (hlink : n.detail_link = none)
    (hdet : n.has_detail = false)
    (hcon : n.constructFails = false)
    (hnull : 4 ≤ criticalNullCount n.base)
    (hnotes : falsy n.base.notes = true) :
    (processor_process_notice s n cur w now).collected = s.collected ∧
    (processor_process_notice s n cur w now).cm.failed_items =
      s.cm.failed_items ++
        [{ item_id := pyGet n.fields "bid_notice_number" "unknown"
           error := qualityGateMsg (criticalNullCount n.base)
           timestamp := now }] ∧
    (processor_process_notice s n cur w now).errors = s.errors + 1 := by
  have hgate : (4 ≤ criticalNullCount n.base && falsy n.base.notes) = true := by
    simp [hnull, hnotes]
  simp only [processor_process_notice, processor_process_notice_try, hproc, hdup,
    Bool.false_eq_true, if_false, ite_false, hlink, hdet, Option.isSome_none,
    Bool.or_self, hcon, hgate, if_true, ite_true, List.dropLast_concat,
    mark_item_failed]
  exact ⟨trivial, trivial, trivial⟩

/-- A list-page row whose constructed record has every critical field
missing and no note. -/
def gateNotice : RawNotice :=
  { fields := [("bid_notice_number", some "g1")]
    base := { bid_notice_number := "g1" }
    ladder := okLadder }

/-- Witness for C4 on a concrete mostly-null item. -/
theorem quality_gate_rejects_mostly_null_witness :
    (processor_process_notice freshState gateNotice 1 true 0).collected = freshState.collected ∧
    (processor_process_notice freshState gateNotice 1 true 0).cm.failed_items =
      freshState.cm.failed_items ++
        [{ item_id := pyGet gateNotice.fields "bid_notice_number" "unknown"
           error := qualityGateMsg (criticalNullCount gateNotice.base)
           timestamp := 0 }] ∧
    (processor_process_notice freshState gateNotice 1 true 0).errors = freshState.errors + 1 :=
  quality_gate_rejects_mostly_null freshState gateNotice 1 true 0
    (by decide) (by decide) rfl rfl rfl (by decide) (by decide)

end Crawler
